import Mathlib

/-!
Verification of the capital-project dashboard data pipeline (`load_data` in
`streamlit_app.py`): column normalization, financial coercion, monthly column
classification, derived financial metrics, and the load-failure path.
Strings are modelled as their character lists where convenient; machine
floats are modelled as rationals (all source arithmetic on the claims'
inputs is exact).
-/

namespace CapitalDashboard

/-! ## String helpers (character-list level) -/

/-- Leading/trailing-whitespace strip, mirroring Python `str.strip()`. -/
def stripL (cs : List Char) : List Char :=
  ((cs.dropWhile Char.isWhitespace).reverse.dropWhile Char.isWhitespace).reverse

/-- `str.replace(',', '')`: drop every comma. -/
def removeCommas (cs : List Char) : List Char :=
  cs.filter (fun c => c ≠ ',')

/-- The separator replacement of `clean_col_name`:
`' '`, `'+'`, `'.'`, `'-'` each become `'_'`. -/
def sepToUnderscore (c : Char) : Char :=
  if c = ' ' ∨ c = '+' ∨ c = '.' ∨ c = '-' then '_' else c

/-- Python `s.split('_')` on a character list (keeps empty pieces). -/
def splitUnderscore : List Char → List (List Char)
  | [] => [[]]
  | c :: rest =>
    let r := splitUnderscore rest
    if c = '_' then [] :: r
    else
      match r with
      | [] => [[c]]
      | g :: gs => (c :: g) :: gs

/-- Python `'_'.join(pieces)` on character lists. -/
def joinUnderscore : List (List Char) → List Char
  | [] => []
  | [g] => g
  | g :: gs => g ++ '_' :: joinUnderscore gs

/-- Value of a run of decimal digits (mirrors Python `int` on a digit string). -/
def digitsToNat (cs : List Char) : Nat :=
  cs.foldl (fun a c => 10 * a + (c.toNat - 48)) 0

/-! ## Column Normalizer (`clean_col_name` and the dedup loop) -/

/-- The fixed `corrections` lookup table of `clean_col_name`. -/
def applyCorrections (s : String) : String :=
  if s = "PROJEC_TID" then "PROJECT_ID"
  else if s = "INI_MATIVE_PROGRAM" then "INITIATIVE_PROGRAM"
  else if s = "ALL_PRIOR_YEARS_A" then "ALL_PRIOR_YEARS_ACTUALS"
  else if s = "C_URRENT_EAC" then "CURRENT_EAC"
  else if s = "QE_RUN_RATE" then "QE_RUN_RATE"
  else if s = "RATE_1" then "RATE_SUPPLEMENTARY"
  else s

/-- `clean_col_name`: strip, map separators to `_`, collapse/trim underscore
runs via split-filter-join, uppercase, then the correction table. -/
def clean_col_name (s : String) : String :=
  let cs := stripL s.data
  let cs := cs.map sepToUnderscore
  let pieces := (splitUnderscore cs).filter (fun g => decide (g ≠ []))
  let cs := joinUnderscore pieces
  let cs := cs.map Char.toUpper
  applyCorrections (String.mk cs)

/-- `seen.get(col, 0)` on the association-list model of the `seen` dict. -/
def lookupCount : List (String × Nat) → String → Nat
  | [], _ => 0
  | p :: rest, k => if p.1 = k then p.2 else lookupCount rest k

/-- `seen[original_col] = count + 1`: update-or-append on the association list. -/
def bumpCount : List (String × Nat) → String → List (String × Nat)
  | [], k => [(k, 1)]
  | p :: rest, k => if p.1 = k then (k, p.2 + 1) :: rest else p :: bumpCount rest k

/-- `f"{col}_{count}"`. -/
def suffixName (c : String) (n : Nat) : String :=
  c ++ "_" ++ toString n

/-- The duplicate-handling loop of `load_data`: the Nth repeat of a name
(looked up in the running `seen` dict) is suffixed `_N`. -/
def dedupAux : List String → List (String × Nat) → List String
  | [], _ => []
  | c :: cs, seen =>
    let n := lookupCount seen c
    (if n > 0 then suffixName c n else c) :: dedupAux cs (bumpCount seen c)

/-- Full Column Normalizer: clean every header, then deduplicate. -/
def normalizeCols (cols : List String) : List String :=
  dedupAux (cols.map clean_col_name) []

/-- Number of occurrences of `x` in a list of names. -/
def countOcc (x : String) : List String → Nat
  | [] => 0
  | c :: cs => (if c = x then 1 else 0) + countOcc x cs

/-- Reference formulation of the dedup step, following the spec's words:
the Nth repeat (counted among the earlier names, in original order) is
suffixed `_N`. -/
def dedupSpecGo : List String → List String → List String
  | _, [] => []
  | pre, c :: rest =>
    (if countOcc c pre > 0 then suffixName c (countOcc c pre) else c)
      :: dedupSpecGo (pre ++ [c]) rest

/-- Spec-side dedup over a whole list. -/
def dedupSpec (cs : List String) : List String :=
  dedupSpecGo [] cs

/-! ## Monthly Column Classifier -/

inductive MonthType where
  | A : MonthType
  | F : MonthType
  | CP : MonthType
deriving DecidableEq

/-- The suffix characters of each monthly column type. -/
def suffixChars : MonthType → List Char
  | .A => ['A']
  | .F => ['F']
  | .CP => ['C', 'P']

/-- Strip an expected leading character sequence, or fail. -/
def stripPre : List Char → List Char → Option (List Char)
  | [], cs => some cs
  | _ :: _, [] => none
  | p :: ps, c :: cs => if c = p then stripPre ps cs else none

/-- The `([AF]|CP)$` suffix alternative of the monthly pattern. -/
def matchSuffix : List Char → Option MonthType
  | ['A'] => some .A
  | ['F'] => some .F
  | ['C', 'P'] => some .CP
  | _ => none

/-- The `_\d{2}_([AF]|CP)$` tail of the monthly pattern (two ASCII digits). -/
def matchTail : List Char → Option MonthType
  | '_' :: d1 :: d2 :: '_' :: rest =>
    if d1.isDigit && d2.isDigit then matchSuffix rest else none
  | _ => none

/-- The strict monthly-column pattern of `load_data`:
`^{current_year}_\d{2}_([AF]|CP)$` (full-string match, two ASCII digits). -/
def matchMonthlyCol (year : Nat) (col : String) : Option MonthType :=
  match stripPre (toString year).data col.data with
  | some rest => matchTail rest
  | none => none

/-- Columns classified as monthly actuals, in column order. -/
def monthlyActualsCols (year : Nat) (cols : List String) : List String :=
  cols.filter (fun c => decide (matchMonthlyCol year c = some MonthType.A))

/-- Columns classified as monthly forecasts, in column order. -/
def monthlyForecastsCols (year : Nat) (cols : List String) : List String :=
  cols.filter (fun c => decide (matchMonthlyCol year c = some MonthType.F))

/-- Columns classified as monthly capital plan, in column order. -/
def monthlyPlanCols (year : Nat) (cols : List String) : List String :=
  cols.filter (fun c => decide (matchMonthlyCol year c = some MonthType.CP))

/-! ## Financial Coercer -/

/-- Parser for a plain decimal number: optional sign, integer digits, and an
optional fractional part (the forms `pd.to_numeric` accepts on the claims'
inputs); anything else fails. -/
def decimalValL (cs : List Char) : Option Rat :=
  let sign : Rat × List Char :=
    match cs with
    | '-' :: rest => (-1, rest)
    | '+' :: rest => (1, rest)
    | _ => (1, cs)
  let intPart := sign.2.takeWhile Char.isDigit
  let rest := sign.2.dropWhile Char.isDigit
  match rest with
  | [] =>
    if intPart = [] then none
    else some (sign.1 * (digitsToNat intPart : Rat))
  | '.' :: fracPart =>
    if fracPart.all Char.isDigit && !(intPart = [] && fracPart = []) then
      some (sign.1 * ((digitsToNat intPart : Rat) +
        (digitsToNat fracPart : Rat) / ((10 : Rat) ^ fracPart.length)))
    else none
  | _ => none

/-- The `.replace('', '0')` step: an empty cell becomes `"0"`. -/
def emptyToZero (cs : List Char) : List Char :=
  if cs = [] then ['0'] else cs

/-- The financial-cell coercion of `load_data`: stringified cell, commas
removed, stripped, empty replaced by `"0"`, parsed with parse failures
coerced to 0. -/
def coerceFinancial (s : String) : Rat :=
  match decimalValL (emptyToZero (stripL (removeCommas s.data))) with
  | some q => q
  | none => 0

/-! ## Rows and derived metrics -/

/-- A numeric row: association list from column name to value (absent
columns read as 0, as in the coerced DataFrame). -/
abbrev Row := List (String × Rat)

/-- Read a cell of a row, defaulting to 0. -/
def getVal (row : Row) (c : String) : Rat :=
  match row.find? (fun p => p.1 == c) with
  | some p => p.2
  | none => 0

/-- Python `abs` / pandas `.abs()` on a rational. -/
def ratAbs (q : Rat) : Rat :=
  if q < 0 then -q else q

/-- `f'{i:02d}'`. -/
def twoDigit (i : Nat) : String :=
  if i < 10 then "0" ++ toString i else toString i

/-- `f'{year}_{i:02d}_{suf}'`. -/
def monthColName (year : Nat) (i : Nat) (suf : String) : String :=
  toString year ++ "_" ++ twoDigit i ++ "_" ++ suf

/-- `TOTAL_{year}_ACTUALS`: row sum over classified actuals columns. -/
def totalActuals (year : Nat) (cols : List String) (row : Row) : Rat :=
  ((monthlyActualsCols year cols).map (getVal row)).sum

/-- `TOTAL_{year}_FORECASTS`: row sum over classified forecast columns. -/
def totalForecasts (year : Nat) (cols : List String) (row : Row) : Rat :=
  ((monthlyForecastsCols year cols).map (getVal row)).sum

/-- `TOTAL_{year}_CAPITAL_PLAN`: row sum over classified plan columns. -/
def totalCapitalPlan (year : Nat) (cols : List String) (row : Row) : Rat :=
  ((monthlyPlanCols year cols).map (getVal row)).sum

/-- `TOTAL_ACTUALS_TO_DATE`: prior-years actuals (when the column exists)
plus current-year actuals. -/
def totalActualsToDate (year : Nat) (cols : List String) (row : Row) : Rat :=
  if "ALL_PRIOR_YEARS_ACTUALS" ∈ cols then
    getVal row "ALL_PRIOR_YEARS_ACTUALS" + totalActuals year cols row
  else totalActuals year cols row

/-- `int(col.split('_')[1])` for a monthly column name. -/
def monthOfCol (col : String) : Nat :=
  digitsToNat ((splitUnderscore col.data).getD 1 [])

/-- `ytd_actual_cols`: actuals columns whose month is at most the current month. -/
def ytdActualCols (year month : Nat) (cols : List String) : List String :=
  (monthlyActualsCols year cols).filter (fun c => decide (monthOfCol c ≤ month))

/-- `SUM_ACTUAL_SPEND_YTD`. -/
def sumActualSpendYTD (year month : Nat) (cols : List String) (row : Row) : Rat :=
  ((ytdActualCols year month cols).map (getVal row)).sum

/-- `RUN_RATE_PER_MONTH`. -/
def runRatePerMonth (year : Nat) (cols : List String) (row : Row) : Rat :=
  (totalActuals year cols row + totalForecasts year cols row) / 12

/-- `CAPITAL_VARIANCE`: business allocation minus total forecasts when the
`BUSINESS_ALLOCATION` column exists, else 0. -/
def capitalVariance (year : Nat) (cols : List String) (row : Row) : Rat :=
  if "BUSINESS_ALLOCATION" ∈ cols then
    getVal row "BUSINESS_ALLOCATION" - totalForecasts year cols row
  else 0

/-- `CAPITAL_UNDERSPEND`: the variance when positive, else 0 (0 outright
when `BUSINESS_ALLOCATION` is absent). -/
def capitalUnderspend (year : Nat) (cols : List String) (row : Row) : Rat :=
  if "BUSINESS_ALLOCATION" ∈ cols then
    (if capitalVariance year cols row > 0 then capitalVariance year cols row else 0)
  else 0

/-- `CAPITAL_OVERSPEND`: the absolute variance when negative, else 0 (0
outright when `BUSINESS_ALLOCATION` is absent). -/
def capitalOverspend (year : Nat) (cols : List String) (row : Row) : Rat :=
  if "BUSINESS_ALLOCATION" ∈ cols then
    (if capitalVariance year cols row < 0 then ratAbs (capitalVariance year cols row) else 0)
  else 0

/-- `NET_REALLOCATION_AMOUNT`. -/
def netReallocation (year : Nat) (cols : List String) (row : Row) : Rat :=
  capitalUnderspend year cols row - capitalOverspend year cols row

/-- `{year}_{mm}_AF_VARIANCE`: actual minus forecast when both monthly
columns exist, else the source's default of 0. -/
def afVarianceCol (year : Nat) (cols : List String) (row : Row) (i : Nat) : Rat :=
  if monthColName year i "A" ∈ cols ∧ monthColName year i "F" ∈ cols then
    getVal row (monthColName year i "A") - getVal row (monthColName year i "F")
  else 0

/-- The 12 monthly A/F variance values, months 1 to 12. -/
def monthlyAFVarianceVals (year : Nat) (cols : List String) (row : Row) : List Rat :=
  (List.range 12).map (fun k => afVarianceCol year cols row (k + 1))

/-- `TOTAL_MONTHLY_SPREAD_SCORE`: sum of the absolute monthly A/F variances
(all 12 months, a missing month contributing 0). -/
def totalMonthlySpreadScore (year : Nat) (cols : List String) (row : Row) : Rat :=
  ((monthlyAFVarianceVals year cols row).map ratAbs).sum

/-- Months for which both the actual and the forecast column exist. -/
def availableMonths (year : Nat) (cols : List String) : List Nat :=
  (((List.range 12).map (fun k => k + 1)).filter
    (fun i => decide (monthColName year i "A" ∈ cols ∧ monthColName year i "F" ∈ cols)))

/-- Modelled from the spec: `AVERAGE_MONTHLY_SPREAD_SCORE`, the mean of the
absolute monthly actual/forecast variances across the available months (0 if
none); the source under `src/` computes only the sum-over-all-12-months
variant `TOTAL_MONTHLY_SPREAD_SCORE`. -/
def averageMonthlySpreadScore (year : Nat) (cols : List String) (row : Row) : Rat :=
  let ms := availableMonths year cols
  if ms = [] then 0
  else
    ((ms.map (fun i =>
      ratAbs (getVal row (monthColName year i "A") - getVal row (monthColName year i "F")))).sum)
      / (ms.length : Rat)

/-- Modelled from the spec: `AVG_ACTUAL_SPEND` = `SUM_ACTUAL_SPEND_YTD`
divided by the count of YTD-actual months with a minimum denominator of 1;
the source under `src/` does not compute this field. -/
def avgActualSpend (year month : Nat) (cols : List String) (row : Row) : Rat :=
  sumActualSpendYTD year month cols row / ((max (ytdActualCols year month cols).length 1 : Nat) : Rat)

/-- Result type of the legacy percentage-deviation metric: either positive
infinity or a finite rational. -/
inductive PercentDev where
  | posInf : PercentDev
  | val : Rat → PercentDev
deriving DecidableEq

/-- Modelled from the spec: the legacy percentage deviation
`(actual - budget) / budget * 100`, special-cased to positive infinity when
the budget is 0 and the actual is positive and to 0 when both are 0; the
source under `src/` does not compute this metric. -/
def percentageDeviation (budget actual : Rat) : PercentDev :=
  if budget = 0 then
    (if 0 < actual then .posInf else .val 0)
  else .val ((actual - budget) / budget * 100)

/-! ## The full load pipeline (`load_data`) -/

/-- A cell of the processed table: a leftover string or a coerced number. -/
inductive Cell where
  | str : String → Cell
  | num : Rat → Cell

/-- The parsed CSV before any processing: header row plus data rows of
raw string cells. -/
structure RawTable where
  headers : List String
  rows : List (List String)

/-- The processed table: column list and rows as name/cell association lists. -/
structure Table where
  cols : List String
  rows : List (List (String × Cell))

/-- Operator-visible messages of `load_data`. -/
inductive Msg where
  | error : String → Msg
  | warning : String → Msg

/-- `pd.DataFrame()`: the empty result returned on a load failure. -/
def emptyTable : Table := ⟨[], []⟩

/-- `(_\d+)?$`: an optional underscore-digits tail. -/
def optNumSuffix : List Char → Bool
  | [] => true
  | '_' :: ds => !ds.isEmpty && ds.all Char.isDigit
  | _ => false

/-- The monthly alternative `20\d{2}_\d{2}_(A|F|CP)(_\d+)?` of the financial
column pattern. -/
def matchesMonthlyFinancial (col : String) : Bool :=
  match col.data with
  | '2' :: '0' :: y1 :: y2 :: '_' :: m1 :: m2 :: '_' :: rest =>
    y1.isDigit && y2.isDigit && m1.isDigit && m2.isDigit &&
      (match rest with
       | 'A' :: tail => optNumSuffix tail
       | 'F' :: tail => optNumSuffix tail
       | 'C' :: 'P' :: tail => optNumSuffix tail
       | _ => false)
  | _ => false

/-- The `financial_pattern` of `load_data`: a monthly column of any 20xx
year (with optional dedup suffix) or one of the fixed metric names. -/
def isFinancialCol (col : String) : Bool :=
  matchesMonthlyFinancial col ||
    (["ALL_PRIOR_YEARS_ACTUALS", "BUSINESS_ALLOCATION", "CURRENT_EAC",
      "QE_FORECAST_VS_QE_PLAN", "FORECAST_VS_BA", "YE_RUN", "RATE",
      "QE_RUN", "RATE_SUPPLEMENTARY"] : List String).contains col

/-- Pair a raw data row with the normalized columns, coercing the cells of
financial columns to numbers. -/
def buildRow (cols : List String) (cells : List String) : List (String × Cell) :=
  (cols.zip cells).map (fun p =>
    (p.1, if isFinancialCol p.1 then Cell.num (coerceFinancial p.2) else Cell.str p.2))

/-- The numeric view of a processed row (non-numeric cells dropped; absent
columns read as 0 via `getVal`). -/
def numRow (r : List (String × Cell)) : Row :=
  r.filterMap (fun p =>
    match p.2 with
    | Cell.num q => some (p.1, q)
    | Cell.str _ => none)

/-- Names of the derived columns appended by `load_data`, in insertion order. -/
def derivedCols (year : Nat) : List String :=
  ["TOTAL_" ++ toString year ++ "_ACTUALS",
   "TOTAL_" ++ toString year ++ "_FORECASTS",
   "TOTAL_" ++ toString year ++ "_CAPITAL_PLAN",
   "TOTAL_ACTUALS_TO_DATE", "SUM_ACTUAL_SPEND_YTD", "SUM_OF_FORECASTED_NUMBERS",
   "RUN_RATE_PER_MONTH", "CAPITAL_VARIANCE", "CAPITAL_UNDERSPEND",
   "CAPITAL_OVERSPEND", "NET_REALLOCATION_AMOUNT"]
  ++ (List.range 12).map (fun k => monthColName year (k + 1) "AF_VARIANCE")
  ++ ["TOTAL_MONTHLY_SPREAD_SCORE"]

/-- Append every derived metric of `load_data` to a processed row. -/
def appendDerived (year month : Nat) (cols : List String)
    (r : List (String × Cell)) : List (String × Cell) :=
  let nr := numRow r
  r ++
  [("TOTAL_" ++ toString year ++ "_ACTUALS", Cell.num (totalActuals year cols nr)),
   ("TOTAL_" ++ toString year ++ "_FORECASTS", Cell.num (totalForecasts year cols nr)),
   ("TOTAL_" ++ toString year ++ "_CAPITAL_PLAN", Cell.num (totalCapitalPlan year cols nr)),
   ("TOTAL_ACTUALS_TO_DATE", Cell.num (totalActualsToDate year cols nr)),
   ("SUM_ACTUAL_SPEND_YTD", Cell.num (sumActualSpendYTD year month cols nr)),
   ("SUM_OF_FORECASTED_NUMBERS", Cell.num (totalForecasts year cols nr)),
   ("RUN_RATE_PER_MONTH", Cell.num (runRatePerMonth year cols nr)),
   ("CAPITAL_VARIANCE", Cell.num (capitalVariance year cols nr)),
   ("CAPITAL_UNDERSPEND", Cell.num (capitalUnderspend year cols nr)),
   ("CAPITAL_OVERSPEND", Cell.num (capitalOverspend year cols nr)),
   ("NET_REALLOCATION_AMOUNT", Cell.num (netReallocation year cols nr))]
  ++ (List.range 12).map (fun k =>
      (monthColName year (k + 1) "AF_VARIANCE", Cell.num (afVarianceCol year cols nr (k + 1))))
  ++ [("TOTAL_MONTHLY_SPREAD_SCORE", Cell.num (totalMonthlySpreadScore year cols nr))]

/-- Successful-parse processing: normalize headers, coerce financial cells,
append derived metrics, and surface the missing-column warnings. -/
def processTable (year month : Nat) (raw : RawTable) : Table × List Msg :=
  let cols := normalizeCols raw.headers
  let rows := raw.rows.map (fun cells => appendDerived year month cols (buildRow cols cells))
  let warnings :=
    (if "ALL_PRIOR_YEARS_ACTUALS" ∈ cols then [] else
      [Msg.warning "Column ALL_PRIOR_YEARS_ACTUALS not found."]) ++
    (if "BUSINESS_ALLOCATION" ∈ cols then [] else
      [Msg.warning "Column BUSINESS_ALLOCATION not found for calculating under/over spend."])
  (⟨cols ++ derivedCols year, rows⟩, warnings)

/-- `load_data`: the `pd.read_csv` outcome is the input; a parse failure is
reported and yields the empty table with no further processing, a parsed
table goes through the full pipeline. -/
def load_data (year month : Nat) (input : Except String RawTable) : Table × List Msg :=
  match input with
  | Except.error e => (emptyTable, [Msg.error ("Error loading file: " ++ e)])
  | Except.ok raw => processTable year month raw

/-! ## Concrete example tables used by the claims -/

/-- Columns of a row whose only monthly data is January and February A/F pairs. -/
def exCols : List String := ["2025_01_A", "2025_01_F", "2025_02_A", "2025_02_F"]

/-- The actual/forecast pairs (100, 90) and (110, 100). -/
def exRow : Row := [("2025_01_A", 100), ("2025_01_F", 90), ("2025_02_A", 110), ("2025_02_F", 100)]

/-- Columns for the business-allocation example. -/
def exCols5 : List String := ["BUSINESS_ALLOCATION", "2025_05_F"]

/-- Business allocation 1000 with total forecasts 800. -/
def exRow5 : Row := [("BUSINESS_ALLOCATION", 1000), ("2025_05_F", 800)]

/-! ## Lemmas: the dedup loop computes prefix-occurrence suffixing -/

theorem lookupCount_bump (seen : List (String × Nat)) (k x : String) :
    lookupCount (bumpCount seen k) x =
      if x = k then lookupCount seen k + 1 else lookupCount seen x := by
  induction seen with
  | nil =>
    by_cases hx : x = k
    · subst hx; simp [bumpCount, lookupCount]
    · simp [bumpCount, lookupCount, hx, Ne.symm hx]
  | cons p rest ih =>
    by_cases hp : p.1 = k
    · by_cases hx : x = k
      · subst hx; simp [bumpCount, lookupCount, hp]
      · simp [bumpCount, lookupCount, hp, hx, Ne.symm hx]
    · by_cases hx : x = k
      · subst hx; simp [bumpCount, lookupCount, hp, ih, fun h : p.1 = x => hp h]
      · simp [bumpCount, lookupCount, hp, ih, hx]

theorem countOcc_append (x c : String) (pre : List String) :
    countOcc x (pre ++ [c]) = countOcc x pre + (if c = x then 1 else 0) := by
  induction pre with
  | nil => simp [countOcc]
  | cons a rest ih => simp [countOcc, ih]; omega

theorem dedupAux_spec (cs : List String) :
    ∀ (pre : List String) (seen : List (String × Nat)),
      (∀ x, lookupCount seen x = countOcc x pre) →
      dedupAux cs seen = dedupSpecGo pre cs := by
  induction cs with
  | nil => intro _ _ _; rfl
  | cons c rest ih =>
    intro pre seen hagree
    simp only [dedupAux, dedupSpecGo]
    rw [hagree c]
    congr 1
    apply ih
    intro x
    rw [lookupCount_bump, countOcc_append]
    by_cases hx : x = c
    · subst hx; simp [hagree x]
    · simp [hx, hagree x, Ne.symm hx]

theorem dedupSpecGo_length (cs : List String) :
    ∀ pre, (dedupSpecGo pre cs).length = cs.length := by
  induction cs with
  | nil => intro _; rfl
  | cons c rest ih => intro pre; simp [dedupSpecGo, ih]

/-! ## Lemmas: the monthly pattern matches exactly the claimed shapes -/

theorem stripPre_eq_some (p : List Char) :
    ∀ cs r, stripPre p cs = some r ↔ cs = p ++ r := by
  induction p with
  | nil => intro cs r; simp [stripPre]
  | cons a ps ih =>
    intro cs r
    cases cs with
    | nil => simp [stripPre]
    | cons c rest =>
      by_cases hc : c = a
      · subst hc; simp [stripPre, ih]
      · simp [stripPre, hc]

theorem stripPre_append (p r : List Char) : stripPre p (p ++ r) = some r :=
  (stripPre_eq_some p (p ++ r) r).mpr rfl

theorem matchSuffix_eq_some (rest : List Char) (t : MonthType) :
    matchSuffix rest = some t ↔ rest = suffixChars t := by
  constructor
  · intro h
    unfold matchSuffix at h
    split at h <;> simp_all [suffixChars] <;> cases h <;> rfl
  · intro h
    subst h
    cases t <;> rfl

theorem matchTail_eq_some (rest : List Char) (t : MonthType) :
    matchTail rest = some t ↔
      ∃ d1 d2 : Char, d1.isDigit = true ∧ d2.isDigit = true ∧
        rest = '_' :: d1 :: d2 :: '_' :: suffixChars t := by
  constructor
  · intro h
    unfold matchTail at h
    split at h
    · next d1 d2 tail =>
      split at h
      · next hd =>
        rw [Bool.and_eq_true] at hd
        obtain ⟨h1, h2⟩ := hd
        exact ⟨d1, d2, h1, h2, by rw [(matchSuffix_eq_some tail t).mp h]⟩
      · exact absurd h (by simp)
    · exact absurd h (by simp)
  · rintro ⟨d1, d2, h1, h2, rfl⟩
    show (if d1.isDigit && d2.isDigit then matchSuffix (suffixChars t) else none) = some t
    rw [h1, h2]
    simpa using (matchSuffix_eq_some (suffixChars t) t).mpr rfl

theorem matchMonthlyCol_iff (year : Nat) (col : String) (t : MonthType) :
    matchMonthlyCol year col = some t ↔
      ∃ d1 d2 : Char, d1.isDigit = true ∧ d2.isDigit = true ∧
        col.data = (toString year).data ++ '_' :: d1 :: d2 :: '_' :: suffixChars t := by
  constructor
  · intro h
    unfold matchMonthlyCol at h
    split at h
    · next rest heq =>
      obtain ⟨d1, d2, h1, h2, hrest⟩ := (matchTail_eq_some rest t).mp h
      exact ⟨d1, d2, h1, h2, by
        rw [(stripPre_eq_some _ _ _).mp heq, hrest]⟩
    · exact absurd h (by simp)
  · rintro ⟨d1, d2, h1, h2, hcol⟩
    unfold matchMonthlyCol
    rw [hcol, stripPre_append]
    exact (matchTail_eq_some _ t).mpr ⟨d1, d2, h1, h2, rfl⟩

theorem mem_monthlyActualsCols (year : Nat) (cols : List String) (col : String) :
    col ∈ monthlyActualsCols year cols ↔
      col ∈ cols ∧ matchMonthlyCol year col = some MonthType.A := by
  simp [monthlyActualsCols, List.mem_filter]

theorem mem_monthlyForecastsCols (year : Nat) (cols : List String) (col : String) :
    col ∈ monthlyForecastsCols year cols ↔
      col ∈ cols ∧ matchMonthlyCol year col = some MonthType.F := by
  simp [monthlyForecastsCols, List.mem_filter]

theorem mem_monthlyPlanCols (year : Nat) (cols : List String) (col : String) :
    col ∈ monthlyPlanCols year cols ↔
      col ∈ cols ∧ matchMonthlyCol year col = some MonthType.CP := by
  simp [monthlyPlanCols, List.mem_filter]

/-! ## Lemmas: metric algebra -/

theorem ratAbs_ite (p : Prop) [Decidable p] (x : Rat) :
    ratAbs (if p then x else 0) = if p then ratAbs x else 0 := by
  split <;> simp [ratAbs]

theorem under_sub_over (v : Rat) :
    (if v > 0 then v else 0) - (if v < 0 then ratAbs v else 0) = v := by
  rcases lt_trichotomy v 0 with hv | hv | hv
  · rw [if_neg (by simp [not_lt]; exact le_of_lt hv), if_pos hv]
    simp [ratAbs, hv]
  · subst hv; simp
  · rw [if_pos hv, if_neg (by simp [not_lt]; exact le_of_lt hv)]
    simp

theorem capitalVariance_of_absent (year : Nat) (cols : List String) (row : Row)
    (h : "BUSINESS_ALLOCATION" ∉ cols) : capitalVariance year cols row = 0 := by
  unfold capitalVariance
  rw [if_neg h]

/-! ## Claim theorems -/

/-- C2 (counterexample): the Column Normalizer does NOT always return
pairwise-distinct names. For the raw headers `A`, `A_1`, `A` the dedup loop
suffixes the second `A` as `A_1`, which collides with the distinct input
header `A_1`, so the output `[A, A_1, A_1]` has a duplicate. -/
theorem claim_C2_counterexample :
    normalizeCols ["A", "A_1", "A"] = ["A", "A_1", "A_1"] ∧
    ¬ (normalizeCols ["A", "A_1", "A"]).Nodup := by
  constructor
  · decide
  · decide

/-- C2 (amended): for every list of raw header strings the Column Normalizer
returns a list of canonical names of the same length and order as the input,
suffixing the Nth repeat (N ≥ 1) of a cleaned name with `_N` (the count taken
over the earlier cleaned names in original order); the outputs are however
not guaranteed pairwise distinct, since a suffixed repeat can collide with a
distinct input name. -/
theorem claim_C2_amended (cols : List String) :
    (normalizeCols cols).length = cols.length ∧
    normalizeCols cols = dedupSpec (cols.map clean_col_name) := by
  have h : normalizeCols cols = dedupSpec (cols.map clean_col_name) := by
    unfold normalizeCols dedupSpec
    exact dedupAux_spec _ [] [] (fun _ => rfl)
  refine ⟨?_, h⟩
  rw [h]
  unfold dedupSpec
  rw [dedupSpecGo_length]
  simp

/-- C3: the Monthly Column Classifier places a canonical column name in the
actuals / forecasts / capital-plan list exactly when the full name is
`{year}_{MM}_{SUFFIX}` with `MM` exactly two digits and `SUFFIX` the
respective `A`, `F` or `CP`; with current year 2025, `2025_01_A` is accepted
into the actuals list while `2024_01_A` and `2025_01_X` match nothing. -/
theorem claim_C3_classifier :
    (∀ (year : Nat) (cols : List String) (col : String),
      (col ∈ monthlyActualsCols year cols ↔
        col ∈ cols ∧ ∃ d1 d2 : Char, d1.isDigit = true ∧ d2.isDigit = true ∧
          col.data = (toString year).data ++ '_' :: d1 :: d2 :: '_' :: ['A']) ∧
      (col ∈ monthlyForecastsCols year cols ↔
        col ∈ cols ∧ ∃ d1 d2 : Char, d1.isDigit = true ∧ d2.isDigit = true ∧
          col.data = (toString year).data ++ '_' :: d1 :: d2 :: '_' :: ['F']) ∧
      (col ∈ monthlyPlanCols year cols ↔
        col ∈ cols ∧ ∃ d1 d2 : Char, d1.isDigit = true ∧ d2.isDigit = true ∧
          col.data = (toString year).data ++ '_' :: d1 :: d2 :: '_' :: ['C', 'P'])) ∧
    matchMonthlyCol 2025 "2025_01_A" = some MonthType.A ∧
    matchMonthlyCol 2025 "2024_01_A" = none ∧
    matchMonthlyCol 2025 "2025_01_X" = none := by
  refine ⟨?_, by decide, by decide, by decide⟩
  intro year cols col
  refine ⟨?_, ?_, ?_⟩
  · rw [mem_monthlyActualsCols, matchMonthlyCol_iff]; simp [suffixChars]
  · rw [mem_monthlyForecastsCols, matchMonthlyCol_iff]; simp [suffixChars]
  · rw [mem_monthlyPlanCols, matchMonthlyCol_iff]; simp [suffixChars]

/-- C4: the Financial Coercer yields, for every cell string, the decimal
value of the cell after comma removal and whitespace stripping, and yields 0
for the empty string and for anything that fails to parse (it is a total
function, so no error can surface); in particular `"1,234.50"` gives
1234.50. -/
theorem claim_C4_coercer :
    (∀ s : String,
      coerceFinancial s = (decimalValL (stripL (removeCommas s.data))).getD 0) ∧
    coerceFinancial "1,234.50" = 2469 / 2 ∧
    coerceFinancial "" = 0 ∧
    coerceFinancial "abc" = 0 := by
  refine ⟨?_, by with_unfolding_all rfl, by with_unfolding_all rfl,
    by with_unfolding_all rfl⟩
  intro s
  unfold coerceFinancial emptyToZero
  by_cases h : stripL (removeCommas s.data) = []
  · rw [h]
    with_unfolding_all rfl
  · rw [if_neg h]
    cases hd : decimalValL (stripL (removeCommas s.data)) <;> simp [hd]

/-- C1 (counterexample): for the row whose only monthly data is the
actual/forecast pairs (100, 90) and (110, 100), the score the code derives
(`TOTAL_MONTHLY_SPREAD_SCORE`) is 20 — the sum of the absolute variances
over all 12 months with the 10 missing months contributing 0 — and not 10,
the mean over the available months that the claim asserts. -/
theorem claim_C1_counterexample :
    totalMonthlySpreadScore 2025 exCols exRow = 20 ∧
    averageMonthlySpreadScore 2025 exCols exRow = 10 ∧
    totalMonthlySpreadScore 2025 exCols exRow ≠
      averageMonthlySpreadScore 2025 exCols exRow := by
  refine ⟨by with_unfolding_all rfl, by with_unfolding_all rfl, ?_⟩
  rw [show totalMonthlySpreadScore 2025 exCols exRow = 20 by with_unfolding_all rfl,
    show averageMonthlySpreadScore 2025 exCols exRow = 10 by with_unfolding_all rfl]
  norm_num

/-- C1 (amended): the derived monthly spread score
(`TOTAL_MONTHLY_SPREAD_SCORE`) equals the SUM of the absolute per-month
actual-minus-forecast variances over all 12 months, a month missing either
column contributing 0 (not the mean over available months); for the row with
only the pairs (100, 90) and (110, 100) the score is 20. -/
theorem claim_C1_amended :
    (∀ (year : Nat) (cols : List String) (row : Row),
      totalMonthlySpreadScore year cols row =
        ((List.range 12).map (fun k =>
          if monthColName year (k + 1) "A" ∈ cols ∧ monthColName year (k + 1) "F" ∈ cols then
            ratAbs (getVal row (monthColName year (k + 1) "A") -
              getVal row (monthColName year (k + 1) "F"))
          else 0)).sum) ∧
    totalMonthlySpreadScore 2025 exCols exRow = 20 := by
  refine ⟨?_, by with_unfolding_all rfl⟩
  intro year cols row
  unfold totalMonthlySpreadScore monthlyAFVarianceVals
  rw [List.map_map]
  congr 1
  congr 1
  funext k
  simp [Function.comp, afVarianceCol, ratAbs_ite]

/-- C5: `CAPITAL_VARIANCE` is business allocation minus `TOTAL_FORECASTS`
(0 when the `BUSINESS_ALLOCATION` column is absent), `CAPITAL_UNDERSPEND` is
the variance when positive else 0, `CAPITAL_OVERSPEND` is the absolute
variance when negative else 0, and `NET_REALLOCATION_AMOUNT` is underspend
minus overspend; business allocation 1000 with total forecasts 800 gives
underspend 200, overspend 0 and net reallocation 200. -/
theorem claim_C5_capital_metrics :
    (∀ (year : Nat) (cols : List String) (row : Row),
      capitalVariance year cols row =
        (if "BUSINESS_ALLOCATION" ∈ cols then
          getVal row "BUSINESS_ALLOCATION" - totalForecasts year cols row else 0) ∧
      capitalUnderspend year cols row =
        (if 0 < capitalVariance year cols row then capitalVariance year cols row else 0) ∧
      capitalOverspend year cols row =
        (if capitalVariance year cols row < 0 then
          ratAbs (capitalVariance year cols row) else 0) ∧
      netReallocation year cols row =
        capitalUnderspend year cols row - capitalOverspend year cols row) ∧
    capitalUnderspend 2025 exCols5 exRow5 = 200 ∧
    capitalOverspend 2025 exCols5 exRow5 = 0 ∧
    netReallocation 2025 exCols5 exRow5 = 200 := by
  refine ⟨?_, by with_unfolding_all rfl, by with_unfolding_all rfl,
    by with_unfolding_all rfl⟩
  intro year cols row
  refine ⟨rfl, ?_, ?_, rfl⟩
  · by_cases h : "BUSINESS_ALLOCATION" ∈ cols
    · unfold capitalUnderspend
      rw [if_pos h]
    · unfold capitalUnderspend
      rw [if_neg h, capitalVariance_of_absent year cols row h]
      simp
  · by_cases h : "BUSINESS_ALLOCATION" ∈ cols
    · unfold capitalOverspend
      rw [if_pos h]
    · unfold capitalOverspend
      rw [if_neg h, capitalVariance_of_absent year cols row h]
      simp

/-- C6: the Metrics Deriver defines `AVG_ACTUAL_SPEND` as
`SUM_ACTUAL_SPEND_YTD` divided by the count of YTD-actual months with a
minimum denominator of 1, for every row (a total function, so no row is
dropped), and a project with zero recorded YTD months gets the defined
average 0. -/
theorem claim_C6_avg_actual_spend :
    (∀ (year month : Nat) (cols : List String) (row : Row),
      avgActualSpend year month cols row =
        sumActualSpendYTD year month cols row /
          ((max (ytdActualCols year month cols).length 1 : Nat) : Rat)) ∧
    (∀ (year month : Nat) (cols : List String) (row : Row),
      ytdActualCols year month cols = [] →
        avgActualSpend year month cols row = 0) := by
  refine ⟨fun _ _ _ _ => rfl, ?_⟩
  intro year month cols row h
  unfold avgActualSpend sumActualSpendYTD
  rw [h]
  simp

/-- C6 (witness): with no columns at all there are zero YTD-actual months
and the average actual spend is the defined value 0. -/
theorem claim_C6_avg_actual_spend_witness :
    ytdActualCols 2025 6 [] = [] ∧ avgActualSpend 2025 6 [] [] = 0 :=
  ⟨rfl, claim_C6_avg_actual_spend.2 2025 6 [] [] rfl⟩

/-- C7: the percentage-deviation metric equals
`(actual - budget) / budget * 100` whenever the budget is nonzero, is
positive infinity for budget 0 with actual 500, and is 0 for budget 0 with
actual 0. -/
theorem claim_C7_percentage_deviation :
    (∀ budget actual : Rat, budget ≠ 0 →
      percentageDeviation budget actual =
        PercentDev.val ((actual - budget) / budget * 100)) ∧
    percentageDeviation 0 500 = PercentDev.posInf ∧
    percentageDeviation 0 0 = PercentDev.val 0 := by
  refine ⟨?_, ?_, ?_⟩
  · intro budget actual h
    unfold percentageDeviation
    rw [if_neg h]
  · unfold percentageDeviation
    rw [if_pos rfl, if_pos (by norm_num)]
  · unfold percentageDeviation
    rw [if_pos rfl, if_neg (by norm_num)]

/-- C7 (witness): applying the nonzero-budget case at budget 2, actual 1. -/
theorem claim_C7_percentage_deviation_witness :
    (2 : Rat) ≠ 0 ∧
    percentageDeviation 2 1 = PercentDev.val ((1 - 2) / 2 * 100) :=
  ⟨by norm_num, claim_C7_percentage_deviation.1 2 1 (by norm_num)⟩

/-- C9: a failed parse of the uploaded file makes `load_data` report the
error to the operator and return the empty table — no rows, no columns, no
further pipeline processing — instead of propagating an exception. -/
theorem claim_C9_load_failure :
    ∀ (year month : Nat) (e : String),
      load_data year month (Except.error e) =
        (emptyTable, [Msg.error ("Error loading file: " ++ e)]) ∧
      (load_data year month (Except.error e)).1.cols = [] ∧
      (load_data year month (Except.error e)).1.rows = [] :=
  fun _ _ _ => ⟨rfl, rfl, rfl⟩

/-- C10: for every row, `NET_REALLOCATION_AMOUNT` equals `CAPITAL_VARIANCE`
— the underspend-minus-overspend decomposition reconstructs the signed
variance exactly — and when the `BUSINESS_ALLOCATION` column is absent the
variance, underspend, overspend and net amount are all 0. -/
theorem claim_C10_net_eq_variance :
    (∀ (year : Nat) (cols : List String) (row : Row),
      netReallocation year cols row = capitalVariance year cols row) ∧
    (∀ (year : Nat) (cols : List String) (row : Row),
      "BUSINESS_ALLOCATION" ∉ cols →
        capitalVariance year cols row = 0 ∧
        capitalUnderspend year cols row = 0 ∧
        capitalOverspend year cols row = 0 ∧
        netReallocation year cols row = 0) := by
  constructor
  · intro year cols row
    by_cases h : "BUSINESS_ALLOCATION" ∈ cols
    · unfold netReallocation capitalUnderspend capitalOverspend capitalVariance
      rw [if_pos h, if_pos h, if_pos h]
      exact under_sub_over _
    · unfold netReallocation capitalUnderspend capitalOverspend capitalVariance
      rw [if_neg h, if_neg h, if_neg h]
      norm_num
  · intro year cols row h
    unfold netReallocation capitalUnderspend capitalOverspend capitalVariance
    rw [if_neg h, if_neg h, if_neg h]
    norm_num

/-- C10 (witness): with no columns at all, the variance decomposition is
identically 0 and the net amount equals the variance. -/
theorem claim_C10_net_eq_variance_witness :
    "BUSINESS_ALLOCATION" ∉ ([] : List String) ∧
    (capitalVariance 2025 [] [] = 0 ∧ capitalUnderspend 2025 [] [] = 0 ∧
      capitalOverspend 2025 [] [] = 0 ∧ netReallocation 2025 [] [] = 0) :=
  ⟨by simp, claim_C10_net_eq_variance.2 2025 [] [] (by simp)⟩

end CapitalDashboard
